import Mathlib

/-!
Verification of the dream-land property-notice pipeline.

Shallow embedding of the repository's string-cleaning, JSON-response
parsing, coordinate reconciliation and persistence code, over `List Char`
(JS strings), `Rat` (JS numbers on the rational fragment) and explicit
state passing (the document store).  Each definition is annotated with the
source file and lines it is translated from.
-/

set_option autoImplicit false

namespace DreamLand

/-- JS strings are modelled as lists of unicode code points.  The relevant
Gujarati characters all lie in the BMP, so JS `.length` (UTF-16 code units)
coincides with list length on every input the claims are about. -/
abbrev Str := List Char

/-- JS `\s` character class (the whitespace characters that actually occur
in the repository's data: ASCII whitespace plus NBSP). -/
def wsChar (c : Char) : Bool :=
  c = ' ' || c = '\t' || c = '\n' || c = '\r' || c = '\x0b' || c = '\x0c' || c = '\u00A0'

/-- JS `.` (without the `s` flag) matches everything except line
terminators. -/
def lineTermChar (c : Char) : Bool :=
  c = '\n' || c = '\r' || c = '\u2028' || c = '\u2029'

/-- Character class `[^\s,\.]` used by the village-name extraction
patterns in `src/backend/services/geminiService.js`. -/
def tokChar (c : Char) : Bool :=
  !(wsChar c || c = ',' || c = '.')

/-- Character class `[0-9\.\-\/]` removed by the cleaners. -/
def digitPunct (c : Char) : Bool :=
  ('0' ≤ c && c ≤ '9') || c = '.' || c = '-' || c = '/'

/-- JS `String.prototype.trim`. -/
def trimStr (l : Str) : Str :=
  ((l.dropWhile wsChar).reverse.dropWhile wsChar).reverse

/-- Auxiliary for `collapseWs`: the boolean records whether the previous
emitted character came from a whitespace run. -/
def collapseWsAux : Bool → Str → Str
  | _, [] => []
  | lastWs, c :: rest =>
    if wsChar c then
      if lastWs then collapseWsAux true rest
      else ' ' :: collapseWsAux true rest
    else c :: collapseWsAux false rest

/-- JS `.replace(/\s+/g, ' ')`: every maximal whitespace run becomes a
single space. -/
def collapseWs (l : Str) : Str := collapseWsAux false l

/-- Boolean substring test (JS `String.prototype.includes`). -/
def containsSub (pat l : Str) : Bool :=
  l.tails.any (fun t => pat.isPrefixOf t)

/-- Consume a literal, returning the rest of the input on success. -/
def eatLit (lit l : Str) : Option Str :=
  if lit.isPrefixOf l then some (l.drop lit.length) else none

/-- Regex `\s+` followed by a non-whitespace literal: consume at least one
whitespace character, then the maximal whitespace run (greedy matching is
exact here because the following literal never starts with whitespace). -/
def eatWsPlus (l : Str) : Option Str :=
  match l with
  | [] => none
  | c :: rest => if wsChar c then some (rest.dropWhile wsChar) else none

/-- `replace(/X.*$/, '')`-style suffix removal: cut the string at the first
(leftmost) position where the predicate `p` matches the remaining suffix.
If `p` never matches, the string is returned unchanged. -/
def cutAtMatch (p : Str → Bool) : Str → Str
  | [] => []
  | c :: rest => if p (c :: rest) then [] else c :: cutAtMatch p rest

/- Gujarati literals appearing in the cleaning regexes. -/

/-- The word for "revenue". -/
def litRevenue : Str := "રેવન્યુ".data

/-- The word for "survey". -/
def litSurvey : Str := "સર્વે".data

/-- The abbreviation for "number". -/
def litNam : Str := "નં".data

/-- Genitive suffix "ના". -/
def litNaa : Str := "ના".data

/-- Genitive suffix "ની". -/
def litNii : Str := "ની".data

/-- Genitive suffix "નું". -/
def litNun : Str := "નું".data

/-- The word for "village". -/
def litGaam : Str := "ગામ".data

/-- The word "મોજે". -/
def litMoje : Str := "મોજે".data

/-- Matcher (at one position) for the survey-number suffix regexes.
`leadWs` selects the variant with a leading `\s*` (geminiService.js:215-216)
versus without (geocodingService:123-124); `withRev` selects the
revenue-survey variant.  The regex tail `.*$` (no `s`/`m` flags) requires
the rest of the string to contain no line terminator. -/
def surveySuffixAt (leadWs withRev : Bool) (l : Str) : Bool :=
  let l0 := if leadWs then l.dropWhile wsChar else l
  match (if withRev then eatLit litRevenue l0 else some l0) with
  | none => false
  | some l1 =>
    let l1 := if withRev then l1.dropWhile wsChar else l1
    match eatLit litSurvey l1 with
    | none => false
    | some l2 =>
      match eatLit litNam (l2.dropWhile wsChar) with
      | none => false
      | some l3 => l3.all (fun c => !(lineTermChar c))

/-- Matcher for `/LIT\s*$/`: the literal followed by only whitespace up to
the end of the string. -/
def litWsEndAt (lit : Str) (l : Str) : Bool :=
  match eatLit lit l with
  | none => false
  | some rest => rest.all wsChar

/-- `replace(/^મોજે\s+ગામ\s+/, '')` (geminiService.js:222). -/
def stripMojeGaam (l : Str) : Str :=
  match eatLit litMoje l with
  | none => l
  | some l1 =>
    match eatWsPlus l1 with
    | none => l
    | some l2 =>
      match eatLit litGaam l2 with
      | none => l
      | some l3 =>
        match eatWsPlus l3 with
        | none => l
        | some l4 => l4

/-- `replace(/^ગામ\s+/, '')` (geminiService.js:223). -/
def stripGaamPlus (l : Str) : Str :=
  match eatLit litGaam l with
  | none => l
  | some l1 =>
    match eatWsPlus l1 with
    | none => l
    | some l2 => l2

/-- `replace(/^ગામ\s*/gi, '')` (geocodingService, part_006:126): zero or
more whitespace after the literal.  The `^` anchor makes the `g` flag
irrelevant. -/
def stripGaamStar (l : Str) : Str :=
  match eatLit litGaam l with
  | none => l
  | some l1 => l1.dropWhile wsChar

/-- `replace(/[0-9\.\-\/]+/g, '')`. -/
def removeDigits (l : Str) : Str := l.filter (fun c => !(digitPunct c))

/-! ## Geocoding text cleaner (src/unnamed/part_006, `cleanVillageNameForGeocoding`) -/

/-- The boilerplate-removal core of `cleanVillageNameForGeocoding`
(part_006:121-131): the chained `replace` calls plus `trim`, before the
too-short fallback is applied. -/
def cleanCoreGeo (v : Str) : Str :=
  trimStr (collapseWs (removeDigits (stripGaamStar
    (cutAtMatch (surveySuffixAt false false)
      (cutAtMatch (surveySuffixAt false true) v)))))

/-- `cleanVillageNameForGeocoding` (part_006:117-139).  A missing (`null` /
`undefined`) or empty argument is falsy in JS and yields `''`, modelled by
the empty list.  If the cleaned result has fewer than 3 characters the
original string is returned. -/
def cleanVillageNameForGeocoding (v : Str) : Str :=
  if v = [] then [] else
  let cleaned := cleanCoreGeo v
  if cleaned.length < 3 then v else cleaned

/-! ## Village-name post-processor (geminiService.js `postProcessVillageNames`, lines 205-283) -/

/-- Largest end-offset of an occurrence of "ના" inside a `[^\s,\.]+` run
that leaves a non-empty captured group before it.  A backtracking greedy
`([^\s,\.]+)ના` with nothing after it matches up to the LAST such
occurrence. -/
def lastNaaEnd (run : Str) : Option Nat :=
  (((List.range run.length).filter
      (fun i => (i != 0) && litNaa.isPrefixOf (run.drop i))).getLast?).map (fun i => i + 2)

/-- Match length of `/મોજે\s+ગામ\s+([^\s,\.]+)ના/` at the current
position (geminiService.js:237). -/
def tryP1 (l : Str) : Option Nat :=
  match eatLit litMoje l with
  | none => none
  | some l1 =>
    match eatWsPlus l1 with
    | none => none
    | some l2 =>
      match eatLit litGaam l2 with
      | none => none
      | some l3 =>
        match eatWsPlus l3 with
        | none => none
        | some l4 =>
          match lastNaaEnd (l4.takeWhile tokChar) with
          | none => none
          | some e => some (l.length - l4.length + e)

/-- Match length of `/ગામ\s+([^\s,\.]+)ના/` at the current position
(geminiService.js:239). -/
def tryP2 (l : Str) : Option Nat :=
  match eatLit litGaam l with
  | none => none
  | some l1 =>
    match eatWsPlus l1 with
    | none => none
    | some l2 =>
      match lastNaaEnd (l2.takeWhile tokChar) with
      | none => none
      | some e => some (l.length - l2.length + e)

/-- Match length of `/([^\s,\.]+)ના\s+LIT/` at the current position
(geminiService.js:241 with રેવન્યુ, 243 with સર્વે).  Because the
characters of "ના" are themselves in `[^\s,\.]` and the next regex atom is
`\s`, the "ના" can only sit at the very end of the maximal token run. -/
def tryTokNaaThen (lit : Str) (l : Str) : Option Nat :=
  let run := l.takeWhile tokChar
  if 3 ≤ run.length && litNaa.isPrefixOf (run.drop (run.length - 2)) then
    match eatWsPlus (l.drop run.length) with
    | none => none
    | some rest =>
      match eatLit lit rest with
      | none => none
      | some rest2 => some (l.length - rest2.length)
  else none

/-- Match length of `/([^\s,\.]+)ના$/` at the current position
(geminiService.js:245): the whole remaining input is one token run ending
in "ના", with a non-empty captured group. -/
def tryP5 (l : Str) : Option Nat :=
  if (l.takeWhile tokChar).length = l.length && 3 ≤ l.length &&
      litNaa.isPrefixOf (l.drop (l.length - 2)) then
    some l.length
  else none

/-- Match length of `/([^\s,\.]{2,})/` at the current position
(geminiService.js:247): the maximal token run, if it has at least two
characters. -/
def tryP6 (l : Str) : Option Nat :=
  let run := l.takeWhile tokChar
  if 2 ≤ run.length then some run.length else none

/-- Scanner for JS `String.prototype.match` with the `g` flag: collect the
leftmost matches from left to right, resuming after the end of each match.
The fuel argument is an upper bound on the number of scanning steps; every
step consumes at least one character, so `length + 1` fuel is exact. -/
def scanMatchesAux (tryAt : Str → Option Nat) : Nat → Str → List Str
  | 0, _ => []
  | _ + 1, [] => []
  | fuel + 1, c :: rest =>
    match tryAt (c :: rest) with
    | some n =>
      if n = 0 then scanMatchesAux tryAt fuel rest
      else ((c :: rest).take n) :: scanMatchesAux tryAt fuel ((c :: rest).drop n)
    | none => scanMatchesAux tryAt fuel rest

/-- JS `str.match(regex)` for a global regex: the list of full matched
substrings (with `g`, capture groups are NOT returned — `match[1]` is the
second full match, which is what geminiService.js:251-252 actually reads). -/
def jsMatchAll (tryAt : Str → Option Nat) (l : Str) : List Str :=
  scanMatchesAux tryAt (l.length + 1) l

/-- The ordered pattern list of geminiService.js:235-248. -/
def vnPatterns : List (Str → Option Nat) :=
  [tryP1, tryP2, tryTokNaaThen litRevenue, tryTokNaaThen litSurvey, tryP5, tryP6]

/-- Candidate validation of geminiService.js:255-258. -/
def acceptCandidate (cand : Str) : Bool :=
  2 ≤ cand.length && cand.length ≤ 10 &&
    !(containsSub litSurvey cand) && !(containsSub litRevenue cand) &&
    !(containsSub litNam cand)

/-- The pattern loop of geminiService.js:250-264: for each pattern in
order, read `match[1]` (the second full match of the global regex, if any),
trim it, and accept the first candidate passing validation. -/
def findCandidate : List (Str → Option Nat) → Str → Option Str
  | [], _ => none
  | p :: ps, orig =>
    match (jsMatchAll p orig).get? 1 with
    | some m =>
      let cand := trimStr m
      if acceptCandidate cand then some cand else findCandidate ps orig
    | none => findCandidate ps orig

/-- Step 1 of `postProcessVillageNames` (geminiService.js:213-228): the
chained replace calls, in source order. -/
def ppStep1 (name : Str) : Str :=
  trimStr (collapseWs (removeDigits (stripGaamPlus (stripMojeGaam
    (cutAtMatch (litWsEndAt litNun)
      (cutAtMatch (litWsEndAt litNii)
        (cutAtMatch (litWsEndAt litNaa)
          (cutAtMatch (surveySuffixAt true false)
            (cutAtMatch (surveySuffixAt true true) name)))))))))

/-- Step 2 of `postProcessVillageNames` (geminiService.js:230-265):
pattern extraction against the original name when the cleaned name is
still over 10 characters or contains a forbidden substring. -/
def ppStep2 (originalName c1 : Str) : Str :=
  if 10 < c1.length || containsSub litSurvey c1 || containsSub litRevenue c1 then
    match findCandidate vnPatterns originalName with
    | some cand => cand
    | none => c1
  else c1

/-- Step 3 of `postProcessVillageNames` (geminiService.js:268-271):
fall back to the original name when the cleaned name is shorter than 2. -/
def ppStep3 (originalName c2 : Str) : Str :=
  if c2.length < 2 then originalName else c2

/-- Step 4 of `postProcessVillageNames` (geminiService.js:274):
`cleanedVillageName || originalName`. -/
def ppStep4 (originalName c3 : Str) : Str :=
  if c3 = [] then originalName else c3

/-- The full village-name transformation of `postProcessVillageNames`
(geminiService.js:205-283), acting on a truthy `village_name` string. -/
def postProcessVillageName (originalName : Str) : Str :=
  ppStep4 originalName (ppStep3 originalName (ppStep2 originalName (ppStep1 originalName)))

/-- The inline village-name cleaning of the `POST /api/save-notice`
handler (src/unnamed/part_001:194-202): suffix regexes, then `^ગામ\s+`,
then `^મોજે\s+ગામ\s+`, then trim — no digit removal and no whitespace
collapsing. -/
def handlerCleanVillage (v : Str) : Str :=
  trimStr (stripMojeGaam (stripGaamPlus
    (cutAtMatch (litWsEndAt litNun)
      (cutAtMatch (litWsEndAt litNii)
        (cutAtMatch (litWsEndAt litNaa)
          (cutAtMatch (surveySuffixAt true false)
            (cutAtMatch (surveySuffixAt true true) v)))))))

/-- Sanity anchor (spec end-to-end scenario B): the post-processor resolves
"ગામ રીબડાના રેવન્યુ સર્વે નં ૩૬૭" to "રીબડા". -/
example : postProcessVillageName "ગામ રીબડાના રેવન્યુ સર્વે નં ૩૬૭".data = "રીબડા".data := by decide

/-! ## Claims C3, C9, C10 -/

/-- C3, counterexample: the post-processor CAN return a string containing
the survey substring "સર્વે".  On the non-empty input "સર્વેXY" the
suffix regexes do not fire (no "નં" follows the "સર્વે"), no extraction
pattern yields a second match, and the original is kept, so the output
still contains "સર્વે". -/
theorem c3_counterexample :
    containsSub litSurvey (postProcessVillageName "સર્વેXY".data) = true ∧
      "સર્વેXY".data ≠ ([] : Str) := by decide

/-- C3 (amended): the village-name post-processor always returns a
non-empty string on non-empty input; and whenever the step-1 regex-cleaned
name has length 2..10 and is itself free of the survey ("સર્વે") and
revenue ("રેવન્યુ") substrings, the output is exactly that cleaned name
and hence free of both substrings.  (When the cleaned name fails this
validation the code can fall back to the original uncleaned name, which may
retain the boilerplate substrings — see the counterexample.) -/
theorem c3_postprocessor_output :
    ∀ name : Str,
      (name ≠ [] → postProcessVillageName name ≠ []) ∧
      (2 ≤ (ppStep1 name).length → (ppStep1 name).length ≤ 10 →
        containsSub litSurvey (ppStep1 name) = false →
        containsSub litRevenue (ppStep1 name) = false →
        postProcessVillageName name = ppStep1 name ∧
          containsSub litSurvey (postProcessVillageName name) = false ∧
          containsSub litRevenue (postProcessVillageName name) = false) := by
  intro name
  constructor
  · intro hne
    unfold postProcessVillageName ppStep4
    split
    · exact hne
    · assumption
  · intro hlen2 hlen10 hsurv hrev
    have hcond : (10 < (ppStep1 name).length || containsSub litSurvey (ppStep1 name)
        || containsSub litRevenue (ppStep1 name)) = false := by
      rw [hsurv, hrev]
      simp
      omega
    have h2 : ppStep2 name (ppStep1 name) = ppStep1 name := by
      unfold ppStep2
      rw [hcond]
      simp
    have hlt : ¬ ((ppStep1 name).length < 2) := by omega
    have h3 : ppStep3 name (ppStep1 name) = ppStep1 name := by
      unfold ppStep3
      rw [if_neg hlt]
    have hne : ppStep1 name ≠ [] := by
      intro h
      rw [h] at hlen2
      simp at hlen2
    have h4 : ppStep4 name (ppStep1 name) = ppStep1 name := by
      unfold ppStep4
      rw [if_neg hne]
    have hout : postProcessVillageName name = ppStep1 name := by
      unfold postProcessVillageName
      rw [h2, h3, h4]
    exact ⟨hout, by rw [hout]; exact hsurv, by rw [hout]; exact hrev⟩

/-- C3 witness: a concrete non-empty input ("મોજે ગામ પાટદીના") whose
step-1 cleaned form ("પાટદી") validates, so the post-processor output is
clean and non-empty. -/
theorem c3_witness :
    "મોજે ગામ પાટદીના".data ≠ ([] : Str) ∧
      postProcessVillageName "મોજે ગામ પાટદીના".data ≠ [] ∧
      containsSub litSurvey (postProcessVillageName "મોજે ગામ પાટદીના".data) = false ∧
      containsSub litRevenue (postProcessVillageName "મોજે ગામ પાટદીના".data) = false := by
  refine ⟨by decide, (c3_postprocessor_output _).1 (by decide), ?_, ?_⟩
  · exact ((c3_postprocessor_output _).2 (by decide) (by decide) (by decide) (by decide)).2.1
  · exact ((c3_postprocessor_output _).2 (by decide) (by decide) (by decide) (by decide)).2.2

/-- C9: the geocoding text cleaner returns empty input unchanged (a missing
or empty argument is falsy and yields the empty string), and whenever the
boilerplate-removal core would yield a string of fewer than 2 characters,
the original uncleaned string is returned (the code's fallback threshold is
3, which covers every too-short result below 2). -/
theorem c9_cleaner_fallback :
    cleanVillageNameForGeocoding [] = [] ∧
      ∀ v : Str, (cleanCoreGeo v).length < 2 → cleanVillageNameForGeocoding v = v := by
  refine ⟨rfl, ?_⟩
  intro v h
  unfold cleanVillageNameForGeocoding
  by_cases hv : v = []
  · simp [hv]
  · have h3 : (cleanCoreGeo v).length < 3 := by omega
    simp [hv, h3]

/-- C9 witness: cleaning "ગામ ક" strips the village prefix leaving the
single character "ક", so the original is returned. -/
theorem c9_witness :
    (cleanCoreGeo "ગામ ક".data).length < 2 ∧
      cleanVillageNameForGeocoding "ગામ ક".data = "ગામ ક".data :=
  ⟨by decide, c9_cleaner_fallback.2 _ (by decide)⟩

/-- C10, counterexample: the cleaner is NOT idempotent.  On
"ગામ ગામ રીબડા" one application strips a single "ગામ " prefix (the regex
`/^ગામ\s*/` is anchored), and a second application strips another. -/
theorem c10_counterexample :
    cleanVillageNameForGeocoding (cleanVillageNameForGeocoding "ગામ ગામ રીબડા".data) ≠
      cleanVillageNameForGeocoding "ગામ ગામ રીબડા".data := by decide

/-- C10 (amended): the cleaner is not idempotent in general (a second
application can strip a further "ગામ" prefix — see the counterexample);
what holds is that cleaning is idempotent at every input whose cleaned
output is unaffected by the boilerplate-removal core, i.e. cleaning an
already-clean string returns it unchanged. -/
theorem c10_idempotent_on_clean :
    ∀ v : Str,
      cleanCoreGeo (cleanVillageNameForGeocoding v) = cleanVillageNameForGeocoding v →
      cleanVillageNameForGeocoding (cleanVillageNameForGeocoding v) =
        cleanVillageNameForGeocoding v := by
  intro v h
  generalize hy : cleanVillageNameForGeocoding v = y at h ⊢
  unfold cleanVillageNameForGeocoding
  by_cases hvy : y = []
  · simp [hvy]
  · simp only [if_neg hvy, h]
    split <;> rfl

/-- C10 witness: "રીબડા" is already clean, and cleaning it returns it
unchanged. -/
theorem c10_witness :
    cleanCoreGeo (cleanVillageNameForGeocoding "રીબડા".data) =
        cleanVillageNameForGeocoding "રીબડા".data ∧
      cleanVillageNameForGeocoding (cleanVillageNameForGeocoding "રીબડા".data) =
        cleanVillageNameForGeocoding "રીબડા".data :=
  ⟨by decide, c10_idempotent_on_clean _ (by decide)⟩

/-! ## JSON values and `JSON.parse`

The services parse AI responses with `JSON.parse`.  We model JSON values
(plus the JS `undefined` used when reading absent object properties) and
implement the strict JSON grammar as a fuel-indexed recursive-descent
parser; numbers are modelled on the rational fragment of JS numbers. -/

inductive Json where
  | null
  | bool (b : Bool)
  | num (q : ℚ)
  | str (s : Str)
  | arr (elems : List Json)
  | obj (fields : List (Str × Json))
  | undef

/-- JSON whitespace (RFC 8259: space, tab, line feed, carriage return). -/
def jsonWsChar (c : Char) : Bool :=
  c = ' ' || c = '\t' || c = '\n' || c = '\r'

/-- ASCII decimal digit. -/
def isDigitCh (c : Char) : Bool := '0' ≤ c && c ≤ '9'

/-- Value of a decimal digit string. -/
def digitsToNat (ds : Str) : Nat := ds.foldl (fun a c => a * 10 + (c.toNat - 48)) 0

/-- Single-character JSON string escapes. -/
def escCharJson (c : Char) : Option Char :=
  if c = '"' then some '"'
  else if c = '\\' then some '\\'
  else if c = '/' then some '/'
  else if c = 'b' then some '\x08'
  else if c = 'f' then some '\x0c'
  else if c = 'n' then some '\n'
  else if c = 'r' then some '\r'
  else if c = 't' then some '\t'
  else none

/-- Hexadecimal digit value. -/
def hexVal (c : Char) : Option Nat :=
  if '0' ≤ c && c ≤ '9' then some (c.toNat - 48)
  else if 'a' ≤ c && c ≤ 'f' then some (c.toNat - 87)
  else if 'A' ≤ c && c ≤ 'F' then some (c.toNat - 55)
  else none

/-- Body of a JSON string literal, after the opening quote: returns the
decoded characters and the input after the closing quote. -/
def parseStrBody : Nat → Str → Option (Str × Str)
  | 0, _ => none
  | _ + 1, [] => none
  | fuel + 1, c :: rest =>
    if c = '"' then some ([], rest)
    else if c = '\\' then
      match rest with
      | [] => none
      | e :: rest2 =>
        match escCharJson e with
        | some d => (parseStrBody fuel rest2).map (fun p => (d :: p.1, p.2))
        | none =>
          if e = 'u' then
            match rest2 with
            | a :: b :: c2 :: d2 :: rest3 =>
              match hexVal a, hexVal b, hexVal c2, hexVal d2 with
              | some x1, some x2, some x3, some x4 =>
                (parseStrBody fuel rest3).map
                  (fun p => (Char.ofNat (((x1 * 16 + x2) * 16 + x3) * 16 + x4) :: p.1, p.2))
              | _, _, _, _ => none
            | _ => none
          else none
    else if c.toNat < 32 then none
    else (parseStrBody fuel rest).map (fun p => (c :: p.1, p.2))

/-- Fraction part of a JSON number (optional): digits value, digit count,
and the rest of the input. -/
def parseFrac (l : Str) : Option (Nat × Nat × Str) :=
  match l with
  | '.' :: r =>
    let fs := r.takeWhile isDigitCh
    if fs = [] then none
    else some (digitsToNat fs, fs.length, r.drop fs.length)
  | _ => some (0, 0, l)

/-- Exponent part of a JSON number (optional): sign, exponent value, and
the rest of the input. -/
def parseExp (l : Str) : Option (Bool × Nat × Str) :=
  match l with
  | c :: r =>
    if c = 'e' || c = 'E' then
      let p := match r with
        | '+' :: rr => (false, rr)
        | '-' :: rr => (true, rr)
        | _ => (false, r)
      let es := p.2.takeWhile isDigitCh
      if es = [] then none
      else some (p.1, digitsToNat es, p.2.drop es.length)
    else some (false, 0, c :: r)
  | [] => some (false, 0, [])

/-- A JSON number (strict grammar: optional minus, integer part without a
leading zero unless it is exactly "0", optional fraction and exponent),
assembled with `mkRat` so that the value computes by kernel reduction. -/
def parseNumber (l : Str) : Option (ℚ × Str) :=
  let p := match l with
    | '-' :: r => (true, r)
    | _ => (false, l)
  let ds := p.2.takeWhile isDigitCh
  if ds = [] then none
  else if 1 < ds.length ∧ ds.head? = some '0' then none
  else
    match parseFrac (p.2.drop ds.length) with
    | none => none
    | some (fv, fk, l3) =>
      match parseExp l3 with
      | none => none
      | some (eneg, e, l4) =>
        let mant : Nat := digitsToNat ds * 10 ^ fk + fv
        let num : Int := if p.1 then -(mant : Int) else (mant : Int)
        let q : ℚ :=
          if eneg then mkRat num (10 ^ fk * 10 ^ e)
          else mkRat (num * ((10 ^ e : Nat) : Int)) (10 ^ fk)
        some (q, l4)

/-- JSON literal "true". -/
def litTrue : Str := "true".data

/-- JSON literal "false". -/
def litFalse : Str := "false".data

/-- JSON literal "null". -/
def litNull : Str := "null".data

mutual

/-- A JSON value; fuel bounds the recursion depth (every nested call is
preceded by consuming at least one character, so `length + 2` fuel is
always sufficient at the top level). -/
def parseValue : Nat → Str → Option (Json × Str)
  | 0, _ => none
  | fuel + 1, l =>
    match l.dropWhile jsonWsChar with
    | [] => none
    | c :: rest =>
      if c = '{' then
        match rest.dropWhile jsonWsChar with
        | '}' :: rest2 => some (Json.obj [], rest2)
        | _ =>
          match parseMembers fuel rest with
          | some (fields, rest2) => some (Json.obj fields, rest2)
          | none => none
      else if c = '[' then
        match rest.dropWhile jsonWsChar with
        | ']' :: rest2 => some (Json.arr [], rest2)
        | _ =>
          match parseElems fuel rest with
          | some (elems, rest2) => some (Json.arr elems, rest2)
          | none => none
      else if c = '"' then
        match parseStrBody (rest.length + 1) rest with
        | some (s, rest2) => some (Json.str s, rest2)
        | none => none
      else
        match eatLit litTrue (c :: rest) with
        | some rest2 => some (Json.bool true, rest2)
        | none =>
          match eatLit litFalse (c :: rest) with
          | some rest2 => some (Json.bool false, rest2)
          | none =>
            match eatLit litNull (c :: rest) with
            | some rest2 => some (Json.null, rest2)
            | none =>
              match parseNumber (c :: rest) with
              | some (q, rest2) => some (Json.num q, rest2)
              | none => none

/-- Members of a JSON object, after the opening brace (non-empty case). -/
def parseMembers : Nat → Str → Option (List (Str × Json) × Str)
  | 0, _ => none
  | fuel + 1, l =>
    match l.dropWhile jsonWsChar with
    | '"' :: rest =>
      match parseStrBody (rest.length + 1) rest with
      | none => none
      | some (key, rest2) =>
        match rest2.dropWhile jsonWsChar with
        | ':' :: rest3 =>
          match parseValue fuel rest3 with
          | none => none
          | some (v, rest4) =>
            match rest4.dropWhile jsonWsChar with
            | ',' :: rest5 =>
              match parseMembers fuel rest5 with
              | none => none
              | some (fields, rest6) => some ((key, v) :: fields, rest6)
            | '}' :: rest5 => some ([(key, v)], rest5)
            | _ => none
        | _ => none
    | _ => none

/-- Elements of a JSON array, after the opening bracket (non-empty case). -/
def parseElems : Nat → Str → Option (List Json × Str)
  | 0, _ => none
  | fuel + 1, l =>
    match parseValue fuel l with
    | none => none
    | some (v, rest) =>
      match rest.dropWhile jsonWsChar with
      | ',' :: rest2 =>
        match parseElems fuel rest2 with
        | none => none
        | some (elems, rest3) => some (v :: elems, rest3)
      | ']' :: rest2 => some ([v], rest2)
      | _ => none

end

/-- `JSON.parse`: parse one value and require only whitespace after it. -/
def jsonParse (s : Str) : Option Json :=
  match parseValue (s.length + 2) s with
  | some (v, rest) => if rest.dropWhile jsonWsChar = [] then some v else none
  | none => none

/-- JS truthiness of a value. -/
def jsTruthy : Json → Bool
  | Json.null => false
  | Json.undef => false
  | Json.bool b => b
  | Json.num q => if q = 0 then false else true
  | Json.str s => if s = [] then false else true
  | Json.arr _ => true
  | Json.obj _ => true

/-- `typeof x === 'object'` (true for objects, arrays and null). -/
def typeofObject : Json → Bool
  | Json.obj _ => true
  | Json.arr _ => true
  | Json.null => true
  | _ => false

/-- Last binding of a key in an association list.  Objects built by
`JSON.parse` or by object spread give later bindings precedence, so
modelling objects as concatenated binding lists with last-wins lookup is
exact. -/
def lookupLast (k : Str) : List (Str × Json) → Option Json
  | [] => none
  | (k2, v) :: rest =>
    match lookupLast k rest with
    | some w => some w
    | none => if k2 = k then some v else none

/-- JS property read `j.k` as an `Option` (`none` is `undefined`). -/
def jget (j : Json) (k : Str) : Option Json :=
  match j with
  | Json.obj fields => lookupLast k fields
  | _ => none

/-- Parser sanity anchor: an unparseable input yields `none`. -/
example : jsonParse "hello".data = none := rfl

/-! ## Markdown fence stripping and `parseGeminiResponse`
(geminiService.js:290-360) -/

/-- The backtick character. -/
def backtickCh : Char := Char.ofNat 96

/-- A markdown code fence. -/
def litFence : Str := [backtickCh, backtickCh, backtickCh]

/-- A markdown json code fence opener. -/
def litFenceJson : Str := litFence ++ "json".data

/-- `replace(/LIT\s*/, '')` for a non-empty literal: remove the first
occurrence of the literal together with the following whitespace run. -/
def removeFirstLitWs (lit : Str) : Str → Str
  | [] => []
  | c :: rest =>
    if lit.isPrefixOf (c :: rest) then ((c :: rest).drop lit.length).dropWhile wsChar
    else c :: removeFirstLitWs lit rest

/-- The fence-stripping of geminiService.js:293-297 (also used verbatim at
lines 581-583 and 707-709): trim, remove the first triple-backtick-json
opener, cut a trailing fence, remove the first remaining fence, cut a
trailing fence again. -/
def stripFence (resp : Str) : Str :=
  cutAtMatch (litWsEndAt litFence)
    (removeFirstLitWs litFence
      (cutAtMatch (litWsEndAt litFence)
        (removeFirstLitWs litFenceJson (trimStr resp))))

/-- Result of the extraction-response parser: a data value, a confidence
and a notes value.  Confidence is modelled as a rational: the claims and
code paths under verification only concern numeric (or absent) confidence
values. -/
structure ParsedExtraction where
  data : Json
  confidence : ℚ
  notes : Json

/-- JS `x || dflt` on the numeric-or-absent fragment: a present non-zero
number is kept, otherwise (absent, null, or zero — all falsy) the default
applies. -/
def jsNumOr (v : Option Json) (dflt : ℚ) : ℚ :=
  match v with
  | some (Json.num q) => if q = 0 then dflt else q
  | _ => dflt

/-- JS `x || dflt` on arbitrary values. -/
def jsOrJson (v : Option Json) (dflt : Json) : Json :=
  match v with
  | some x => if jsTruthy x then x else dflt
  | none => dflt

/-- `Math.min(Math.max(confidence, 0), 1)` (geminiService.js:312), on the
numeric fragment. -/
def clamp01 (q : ℚ) : ℚ :=
  let m := if q < 0 then 0 else q
  if 1 < m then 1 else m

/-- Key "village_name". -/
def kVillageName : Str := "village_name".data

/-- Key "village_name_cleaned". -/
def kVillageCleaned : Str := "village_name_cleaned".data

/-- Key "data". -/
def kData : Str := "data".data

/-- Key "confidence". -/
def kConfidence : Str := "confidence".data

/-- Key "notes". -/
def kNotes : Str := "notes".data

/-- The village-name post-processing of a parsed data object
(geminiService.js:205-283, called at line 308): a falsy `village_name`
leaves the data unchanged; a truthy string is cleaned and written to both
`village_name` and `village_name_cleaned`; a truthy non-string would make
`.replace` throw a TypeError (modelled as `none`), which the caller's
`catch` turns into the fallback path. -/
def postProcessData : Json → Option Json
  | Json.obj o =>
    (match lookupLast kVillageName o with
     | none => some (Json.obj o)
     | some v =>
       if jsTruthy v then
         match v with
         | Json.str s =>
           some (Json.obj (o ++
             [(kVillageName, Json.str (postProcessVillageName s)),
              (kVillageCleaned, Json.str (postProcessVillageName s))]))
         | _ => none
       else some (Json.obj o))
  | d => some d

/-- Notes value attached on the primary path when the AI supplied none. -/
def defaultNotesGemini : Json := Json.str "Processed with Gemini AI".data

/-- Notes value of the regex-fallback path. -/
def fallbackNotes : Json := Json.str "Parsed with fallback method".data

/-- Notes value of the empty-structure path. -/
def failNotes : Json :=
  Json.str "Failed to parse Gemini response, returned empty structure".data

/-- The all-null 11-field data object of geminiService.js:343-355. -/
def emptyDataObj : Json := Json.obj
  [(kVillageName, Json.null), (kVillageCleaned, Json.null),
   ("survey_number".data, Json.null), ("buyer_name".data, Json.null),
   ("seller_name".data, Json.null), ("notice_date".data, Json.null),
   ("advocate_name".data, Json.null), ("advocate_address".data, Json.null),
   ("advocate_mobile".data, Json.null), ("district".data, Json.null),
   ("taluka".data, Json.null)]

/-- The ultimate-fallback result of geminiService.js:342-358. -/
def emptyExtraction : ParsedExtraction := ⟨emptyDataObj, mkRat 1 10, failNotes⟩

/-- The try-block of `parseGeminiResponse` (geminiService.js:291-318):
fence-strip, `JSON.parse`, validate that `data` is a truthy object,
post-process village names, default and clamp the confidence.  `none`
means the block threw. -/
def primaryParse (resp : Str) : Option ParsedExtraction :=
  match jsonParse (stripFence resp) with
  | none => none
  | some parsed =>
    match jget parsed kData with
    | none => none
    | some d =>
      if jsTruthy d && typeofObject d then
        match postProcessData d with
        | none => none
        | some cleaned =>
          some ⟨cleaned, clamp01 (jsNumOr (jget parsed kConfidence) (mkRat 1 2)),
            jsOrJson (jget parsed kNotes) defaultNotesGemini⟩
      else none

/-- The regex `/\{[\s\S]*\}/` of geminiService.js:325 applied to the raw
response: greedy leftmost match, i.e. from the first brace that has some
closing brace after it, through the last closing brace of the string. -/
def extractBraceBlock (l : Str) : Option Str :=
  match ((List.range l.length).filter (fun i => l.get? i = some '}')).getLast? with
  | none => none
  | some j =>
    match ((List.range j).filter (fun i => l.get? i = some '{')).head? with
    | none => none
    | some i => some ((l.drop i).take (j - i + 1))

/-- The catch-block fallback of `parseGeminiResponse`
(geminiService.js:324-339): parse the first-to-last brace block of the raw
response and accept it when its `data` property is truthy; the confidence
is `fallbackParsed.confidence || 0.3`, with no clamping. -/
def fallbackParse (resp : Str) : Option ParsedExtraction :=
  match extractBraceBlock resp with
  | none => none
  | some block =>
    match jsonParse block with
    | none => none
    | some fb =>
      match jget fb kData with
      | none => none
      | some d =>
        if jsTruthy d then
          some ⟨d, jsNumOr (jget fb kConfidence) (mkRat 3 10), fallbackNotes⟩
        else none

/-- `parseGeminiResponse` (geminiService.js:290-360). -/
def parseGeminiResponse (resp : Str) : ParsedExtraction :=
  match primaryParse resp with
  | some r => r
  | none =>
    match fallbackParse resp with
    | some r => r
    | none => emptyExtraction

/-- The 11 extraction field names (prompt and empty structure). -/
def fields11 : List Str :=
  [kVillageName, kVillageCleaned, "survey_number".data, "buyer_name".data,
   "seller_name".data, "notice_date".data, "advocate_name".data,
   "advocate_address".data, "advocate_mobile".data, "district".data,
   "taluka".data]

/-- Boolean test that a field of a data value is exactly JSON null. -/
def isNullField (d : Json) (k : Str) : Bool :=
  match jget d k with
  | some Json.null => true
  | _ => false

/-- Parser sanity anchor: a fractional number inside an object. -/
example :
    jsNumOr (jget ((jsonParse "\x7b\"a\": 0.9\x7d".data).getD Json.null) "a".data) 0 =
      mkRat 9 10 := by decide

/-! ## Claims C2 and C8 -/

/-- Lower clamp bound. -/
theorem clamp01_nonneg (q : ℚ) : 0 ≤ clamp01 q := by
  unfold clamp01
  dsimp only
  split_ifs <;> linarith

/-- Upper clamp bound. -/
theorem clamp01_le_one (q : ℚ) : clamp01 q ≤ 1 := by
  unfold clamp01
  dsimp only
  split_ifs <;> linarith

/-- C2, counterexample: a response that fails JSON parsing after
fence-stripping need NOT produce the all-null 0.1-confidence structure —
the regex fallback of geminiService.js:324-339 can still extract a brace
block.  On `x {"data": {}, "confidence": 0.9}` the stripped response fails
to parse, yet the result carries confidence 0.9 (not 0.1). -/
theorem c2_counterexample :
    (jsonParse (stripFence "x \x7b\"data\": \x7b\x7d, \"confidence\": 0.9\x7d".data)).isNone
        = true ∧
      (parseGeminiResponse "x \x7b\"data\": \x7b\x7d, \"confidence\": 0.9\x7d".data).confidence
        = mkRat 9 10 ∧
      mkRat 9 10 ≠ mkRat 1 10 := by
  refine ⟨by decide, by decide, by decide⟩

/-- C2 (amended): when fence-stripped JSON parsing fails AND the regex
fallback also fails to yield a parseable brace block with a truthy `data`
property, the extractor returns (never raises) the empty structure: all 11
named fields are null and the confidence is exactly 0.1. -/
theorem c2_parse_failure_empty_structure :
    ∀ resp : Str, jsonParse (stripFence resp) = none → fallbackParse resp = none →
      parseGeminiResponse resp = emptyExtraction ∧
      fields11.all (isNullField (parseGeminiResponse resp).data) = true ∧
      (parseGeminiResponse resp).confidence = mkRat 1 10 := by
  intro resp h1 h2
  have hp : primaryParse resp = none := by
    unfold primaryParse
    rw [h1]
  have he : parseGeminiResponse resp = emptyExtraction := by
    unfold parseGeminiResponse
    rw [hp, h2]
  refine ⟨he, ?_, ?_⟩ <;> rw [he] <;> rfl

/-- C2 witness: the unparseable response "hello" (no brace block at all)
yields the empty structure. -/
theorem c2_witness :
    parseGeminiResponse "hello".data = emptyExtraction ∧
      fields11.all (isNullField (parseGeminiResponse "hello".data).data) = true ∧
      (parseGeminiResponse "hello".data).confidence = mkRat 1 10 :=
  c2_parse_failure_empty_structure "hello".data rfl rfl

/-- C8, counterexample: on the regex-fallback path the AI-reported
confidence is NOT clamped.  The response `x {"data": {}, "confidence": 5}`
fails primary parsing, the fallback accepts the brace block, and the
returned confidence is 5, outside [0,1]. -/
theorem c8_counterexample :
    (parseGeminiResponse "x \x7b\"data\": \x7b\x7d, \"confidence\": 5\x7d".data).confidence
        = 5 ∧
      ¬ ((parseGeminiResponse
          "x \x7b\"data\": \x7b\x7d, \"confidence\": 5\x7d".data).confidence ≤ 1) := by
  refine ⟨by decide, by decide⟩

/-- C8 (amended): the confidence of the extractor's result lies in [0,1]
on the primary parsing path (where `Math.min(Math.max(·,0),1)` is applied)
and on the empty-structure path (0.1); on the regex-fallback path the
result is returned as built by the fallback, whose confidence is the
AI-reported number (default 0.3) without clamping — so out-of-range
reported values pass through there (see the counterexample). -/
theorem c8_confidence_clamping :
    ∀ resp : Str,
      (∀ r : ParsedExtraction, primaryParse resp = some r →
        parseGeminiResponse resp = r ∧ 0 ≤ r.confidence ∧ r.confidence ≤ 1) ∧
      (primaryParse resp = none → ∀ r : ParsedExtraction, fallbackParse resp = some r →
        parseGeminiResponse resp = r) ∧
      (primaryParse resp = none → fallbackParse resp = none →
        (parseGeminiResponse resp).confidence = mkRat 1 10) := by
  intro resp
  refine ⟨?_, ?_, ?_⟩
  · intro r h
    have hr : parseGeminiResponse resp = r := by
      unfold parseGeminiResponse
      rw [h]
    refine ⟨hr, ?_⟩
    unfold primaryParse at h
    rcases hj : jsonParse (stripFence resp) with _ | parsed <;>
      rw [hj] at h <;> dsimp only at h
    · exact absurd h (by simp)
    rcases hd : jget parsed kData with _ | d <;> rw [hd] at h <;> dsimp only at h
    · exact absurd h (by simp)
    by_cases ht : (jsTruthy d && typeofObject d) = true
    · rw [if_pos ht] at h
      rcases hc : postProcessData d with _ | cleaned <;> rw [hc] at h <;> dsimp only at h
      · exact absurd h (by simp)
      · have hconf : r.confidence = clamp01 (jsNumOr (jget parsed kConfidence) (mkRat 1 2)) := by
          cases h
          rfl
        rw [hconf]
        exact ⟨clamp01_nonneg _, clamp01_le_one _⟩
    · rw [if_neg ht] at h
      exact absurd h (by simp)
  · intro hp r hf
    unfold parseGeminiResponse
    rw [hp, hf]
  · intro hp hf
    unfold parseGeminiResponse
    rw [hp, hf]
    rfl

/-- C8 witness: a well-formed response with reported confidence 2 is
clamped into [0,1] on the primary path, and an unparseable response takes
confidence 0.1. -/
theorem c8_witness :
    (0 ≤ (parseGeminiResponse "\x7b\"data\": \x7b\x7d, \"confidence\": 2\x7d".data).confidence ∧
      (parseGeminiResponse "\x7b\"data\": \x7b\x7d, \"confidence\": 2\x7d".data).confidence ≤ 1) ∧
      (parseGeminiResponse "zzz".data).confidence = mkRat 1 10 := by
  constructor
  · have h := (c8_confidence_clamping "\x7b\"data\": \x7b\x7d, \"confidence\": 2\x7d".data).1
      (parseGeminiResponse "\x7b\"data\": \x7b\x7d, \"confidence\": 2\x7d".data) (by rfl)
    exact ⟨h.2.1, h.2.2⟩
  · exact (c8_confidence_clamping "zzz".data).2.2 (by rfl) (by rfl)

/-! ## Refinement pass (geminiService.js `refineExtractedDataWithGemini`, lines 508-639)

Extracted field sets are JS objects; we model them as binding lists with
last-wins lookup, which makes object spread exactly list concatenation. -/

/-- Key "survey_number". -/
def kSurveyNumber : Str := "survey_number".data

/-- Key "notice_date". -/
def kNoticeDate : Str := "notice_date".data

/-- Key "latitude". -/
def kLatitude : Str := "latitude".data

/-- Key "longitude". -/
def kLongitude : Str := "longitude".data

/-- Key "confidence_score". -/
def kConfidenceScore : Str := "confidence_score".data

/-- Key "refinement_notes". -/
def kRefNotes : Str := "refinement_notes".data

/-- Key "original_village_name". -/
def kOrigVillage : Str := "original_village_name".data

/-- Key "original_survey_number". -/
def kOrigSurvey : Str := "original_survey_number".data

/-- Key "original_notice_date". -/
def kOrigDate : Str := "original_notice_date".data

/-- Key "original_latitude". -/
def kOrigLat : Str := "original_latitude".data

/-- Key "original_longitude". -/
def kOrigLng : Str := "original_longitude".data

/-- Key "refinement_applied". -/
def kRefApplied : Str := "refinement_applied".data

/-- Key "refinement_error". -/
def kRefError : Str := "refinement_error".data

/-- Key "refinement_confidence". -/
def kRefConfidence : Str := "refinement_confidence".data

/-- Key "refinement_time_ms". -/
def kRefTime : Str := "refinement_time_ms".data

/-- Left-biased choice on options (JS: a found property shadows earlier
spread sources). -/
def oor (a b : Option Json) : Option Json :=
  match a with
  | some v => some v
  | none => b

/-- JS object spread `{...j}` of an arbitrary value: an object contributes
its fields, a string or array contributes index-keyed elements, primitives
contribute nothing. -/
def spreadFields : Json → List (Str × Json)
  | Json.obj o => o
  | Json.str s => s.enum.map (fun p => (Nat.toDigits 10 p.1, Json.str [p.2]))
  | Json.arr xs => xs.enum.map (fun p => (Nat.toDigits 10 p.1, p.2))
  | _ => []

/-- Property read on a binding list defaulting to `undefined`. -/
def jgetU (o : List (Str × Json)) (k : Str) : Json :=
  (lookupLast k o).getD Json.undef

/-- Property read on an arbitrary JS value defaulting to `undefined`. -/
def jpropU (j : Json) (k : Str) : Json :=
  (lookupLast k (spreadFields j)).getD Json.undef

/-- The error message attached on refinement parse failure
(geminiService.js:593,635); the JS string interpolates the JSON error
message, modelled by its fixed prefix. -/
def refineParseErrMsg : Str := "Refinement response parsing failed".data

/-- The catch-path result of geminiService.js:632-637: the original data
spread first, then the failure markers. -/
def refineErrorResult (extractedData : List (Str × Json)) (tms : ℚ) : List (Str × Json) :=
  extractedData ++
    [(kRefApplied, Json.bool false),
     (kRefError, Json.str refineParseErrMsg),
     (kRefTime, Json.num tms)]

/-- The keys written after the two spreads in the success merge of
geminiService.js:600-613, in object-literal order. -/
def refineSuccessTail (extractedData : List (Str × Json)) (refined : Json) (tms : ℚ) :
    List (Str × Json) :=
  [(kOrigVillage, jgetU extractedData kVillageName),
   (kOrigSurvey, jgetU extractedData kSurveyNumber),
   (kOrigDate, jgetU extractedData kNoticeDate),
   (kOrigLat, jgetU extractedData kLatitude),
   (kOrigLng, jgetU extractedData kLongitude),
   (kRefApplied, Json.bool true),
   (kRefConfidence, jpropU refined kConfidenceScore),
   (kRefNotes, jpropU refined kRefNotes),
   (kRefTime, Json.num tms)]

/-- `refineExtractedDataWithGemini` (geminiService.js:508-639), from the
point where the AI response text `respText` is available; `tms` is the
elapsed-time value.  Parse failure takes the catch path; a response
parsing to JSON `null` makes the property read
`refinedData.confidence_score` throw, which the same catch also turns into
the error path.  On success the result is
`{...extractedData, ...refinedData, original_*, refinement_* }`. -/
def refineExtractedDataWithGemini (extractedData : List (Str × Json)) (respText : Str)
    (tms : ℚ) : List (Str × Json) :=
  match jsonParse (stripFence respText) with
  | none => refineErrorResult extractedData tms
  | some Json.null => refineErrorResult extractedData tms
  | some refined =>
      extractedData ++ spreadFields refined ++ refineSuccessTail extractedData refined tms

/-- Choice is associative. -/
theorem oor_assoc (a b c : Option Json) : oor (oor a b) c = oor a (oor b c) := by
  cases a <;> rfl

/-- Cons equation for last-wins lookup, phrased with choice. -/
theorem lookupLast_cons (k k2 : Str) (v : Json) (rest : List (Str × Json)) :
    lookupLast k ((k2, v) :: rest) =
      oor (lookupLast k rest) (if k2 = k then some v else none) := by
  cases hx : lookupLast k rest <;> simp [lookupLast, oor, hx]

/-- Appending binding lists looks up the right list first. -/
theorem lookupLast_append (k : Str) (a b : List (Str × Json)) :
    lookupLast k (a ++ b) = oor (lookupLast k b) (lookupLast k a) := by
  induction a with
  | nil =>
    cases hx : lookupLast k b <;> simp [lookupLast, oor, hx]
  | cons p rest ih =>
    obtain ⟨k2, v⟩ := p
    rw [List.cons_append, lookupLast_cons, ih, oor_assoc, ← lookupLast_cons]

/-- A binding whose key differs is transparent to lookup. -/
theorem lookupLast_cons_ne (k k2 : Str) (v : Json) (rest : List (Str × Json))
    (h : k2 ≠ k) : lookupLast k ((k2, v) :: rest) = lookupLast k rest := by
  cases hx : lookupLast k rest <;> simp [lookupLast, hx, h]

/-- C4, counterexample: a refinement response consisting of the literal
"null" PARSES SUCCESSFULLY (`JSON.parse("null")` returns null), yet the
refinement does not apply: the property read
`refinedData.confidence_score` (geminiService.js:610) throws a TypeError
on null, the catch at line 627 takes over, and the result carries
`refinement_applied = false` — falsifying the claim's "on successful
parse it returns … refinement_applied = true". -/
theorem c4_counterexample :
    jsonParse (stripFence "null".data) = some Json.null ∧
      lookupLast kRefApplied (refineExtractedDataWithGemini [] "null".data 3)
        = some (Json.bool false) ∧
      some (Json.bool false) ≠ some (Json.bool true) := by
  refine ⟨rfl, rfl, by simp⟩

/-- C4 (amended): behaviour of the refinement merge.  When the response
fails JSON parsing — or parses to the JSON literal null, whose property
access throws and is absorbed by the same catch — every key of the
original data is preserved (only the three refinement markers are
appended), `refinement_applied` is false and an error string is attached.
On successful parse of any non-null value, `refinement_applied` is true,
the pre-refinement values of the five refined fields are retained under
`original_*` keys, the AI-reported confidence is attached, and every other
key resolves to the refined value when present and to the original value
otherwise (union of original and refined fields). -/
theorem c4_refinement_merge :
    ∀ (d : List (Str × Json)) (t : Str) (m : ℚ),
      ((jsonParse (stripFence t) = none ∨ jsonParse (stripFence t) = some Json.null) →
        (∀ k : Str, k ≠ kRefApplied → k ≠ kRefError → k ≠ kRefTime →
          lookupLast k (refineExtractedDataWithGemini d t m) = lookupLast k d) ∧
        lookupLast kRefApplied (refineExtractedDataWithGemini d t m)
            = some (Json.bool false) ∧
        lookupLast kRefError (refineExtractedDataWithGemini d t m)
            = some (Json.str refineParseErrMsg)) ∧
      (∀ refined : Json, jsonParse (stripFence t) = some refined → refined ≠ Json.null →
        lookupLast kRefApplied (refineExtractedDataWithGemini d t m)
            = some (Json.bool true) ∧
        lookupLast kOrigVillage (refineExtractedDataWithGemini d t m)
            = some (jgetU d kVillageName) ∧
        lookupLast kOrigSurvey (refineExtractedDataWithGemini d t m)
            = some (jgetU d kSurveyNumber) ∧
        lookupLast kOrigDate (refineExtractedDataWithGemini d t m)
            = some (jgetU d kNoticeDate) ∧
        lookupLast kOrigLat (refineExtractedDataWithGemini d t m)
            = some (jgetU d kLatitude) ∧
        lookupLast kOrigLng (refineExtractedDataWithGemini d t m)
            = some (jgetU d kLongitude) ∧
        lookupLast kRefConfidence (refineExtractedDataWithGemini d t m)
            = some (jpropU refined kConfidenceScore) ∧
        (∀ k : Str, k ≠ kOrigVillage → k ≠ kOrigSurvey → k ≠ kOrigDate →
          k ≠ kOrigLat → k ≠ kOrigLng → k ≠ kRefApplied → k ≠ kRefConfidence →
          k ≠ kRefNotes → k ≠ kRefTime →
          lookupLast k (refineExtractedDataWithGemini d t m) =
            oor (lookupLast k (spreadFields refined)) (lookupLast k d))) := by
  intro d t m
  constructor
  · intro h
    have hr : refineExtractedDataWithGemini d t m = refineErrorResult d m := by
      unfold refineExtractedDataWithGemini
      rcases h with h | h <;> rw [h]
    refine ⟨?_, ?_, ?_⟩
    · intro k h1 h2 h3
      rw [hr]
      unfold refineErrorResult
      rw [lookupLast_append]
      rw [lookupLast_cons_ne _ _ _ _ (Ne.symm h1), lookupLast_cons_ne _ _ _ _ (Ne.symm h2),
        lookupLast_cons_ne _ _ _ _ (Ne.symm h3)]
      rfl
    · rw [hr]
      unfold refineErrorResult
      rw [lookupLast_append]
      rfl
    · rw [hr]
      unfold refineErrorResult
      rw [lookupLast_append]
      rfl
  · intro refined h hne
    have hr : refineExtractedDataWithGemini d t m =
        d ++ spreadFields refined ++ refineSuccessTail d refined m := by
      unfold refineExtractedDataWithGemini
      rw [h]
      cases refined with
      | null => exact absurd rfl hne
      | bool b => rfl
      | num q => rfl
      | str s => rfl
      | arr xs => rfl
      | obj o => rfl
      | undef => rfl
    refine ⟨?_, ?_, ?_, ?_, ?_, ?_, ?_, ?_⟩ <;>
      first
      | (rw [hr, lookupLast_append]; rfl)
      | (intro k h1 h2 h3 h4 h5 h6 h7 h8 h9
         rw [hr, lookupLast_append]
         have hnone : lookupLast k (refineSuccessTail d refined m) = none := by
           unfold refineSuccessTail
           rw [lookupLast_cons_ne _ _ _ _ (Ne.symm h1), lookupLast_cons_ne _ _ _ _ (Ne.symm h2),
             lookupLast_cons_ne _ _ _ _ (Ne.symm h3), lookupLast_cons_ne _ _ _ _ (Ne.symm h4),
             lookupLast_cons_ne _ _ _ _ (Ne.symm h5), lookupLast_cons_ne _ _ _ _ (Ne.symm h6),
             lookupLast_cons_ne _ _ _ _ (Ne.symm h7), lookupLast_cons_ne _ _ _ _ (Ne.symm h8),
             lookupLast_cons_ne _ _ _ _ (Ne.symm h9)]
           rfl
         rw [hnone]
         rw [show oor none (lookupLast k (d ++ spreadFields refined)) =
             lookupLast k (d ++ spreadFields refined) from rfl]
         rw [lookupLast_append])

/-- C4 witness: a concrete original field set, one unparseable refinement
response and one parsing to null (original preserved,
`refinement_applied = false` on both), and one successful response
(`refinement_applied = true`, original village kept under
`original_village_name`, refined value shadowing the original). -/
theorem c4_witness :
    lookupLast kRefApplied
        (refineExtractedDataWithGemini [(kVillageName, Json.str "A".data)] "null".data 3)
      = some (Json.bool false) ∧
    lookupLast kVillageName
        (refineExtractedDataWithGemini [(kVillageName, Json.str "A".data)] "nope".data 3)
      = lookupLast kVillageName [(kVillageName, Json.str "A".data)] ∧
    lookupLast kRefApplied
        (refineExtractedDataWithGemini [(kVillageName, Json.str "A".data)] "nope".data 3)
      = some (Json.bool false) ∧
    lookupLast kRefApplied
        (refineExtractedDataWithGemini [(kVillageName, Json.str "A".data)]
          "\x7b\"village_name\": \"B\"\x7d".data 3)
      = some (Json.bool true) ∧
    lookupLast kOrigVillage
        (refineExtractedDataWithGemini [(kVillageName, Json.str "A".data)]
          "\x7b\"village_name\": \"B\"\x7d".data 3)
      = some (jgetU [(kVillageName, Json.str "A".data)] kVillageName) ∧
    lookupLast kVillageName
        (refineExtractedDataWithGemini [(kVillageName, Json.str "A".data)]
          "\x7b\"village_name\": \"B\"\x7d".data 3)
      = oor (lookupLast kVillageName
              (spreadFields (Json.obj [(kVillageName, Json.str "B".data)])))
            (lookupLast kVillageName [(kVillageName, Json.str "A".data)]) := by
  have hn := (c4_refinement_merge [(kVillageName, Json.str "A".data)] "null".data 3).1
    (Or.inr rfl)
  have hf := (c4_refinement_merge [(kVillageName, Json.str "A".data)] "nope".data 3).1
    (Or.inl rfl)
  have hs := (c4_refinement_merge [(kVillageName, Json.str "A".data)]
      "\x7b\"village_name\": \"B\"\x7d".data 3).2
    (Json.obj [(kVillageName, Json.str "B".data)]) rfl (fun h => Json.noConfusion h)
  refine ⟨hn.2.1, hf.1 kVillageName (by decide) (by decide) (by decide), hf.2.1, hs.1,
    hs.2.1, ?_⟩
  exact hs.2.2.2.2.2.2.2 kVillageName (by decide) (by decide) (by decide) (by decide)
    (by decide) (by decide) (by decide) (by decide) (by decide)

/-! ## Coordinate reconciliation
(geminiService.js `getPerfectCoordinatesWithGemini`, lines 728-781)

The comparison block runs once both the AI coordinate estimate and the
geocoder result are available.  The haversine distance itself
(`calculateDistance`, lines 826-835) is computed with floating-point
trigonometry, so the reconciliation is modelled parametrically in the
computed distance value. -/

/-- One coordinate estimate as the comparison block reads it: coordinates,
the reported confidence (the geocoder result in this codebase never
carries one), and the address components passed through to the result. -/
structure CoordSource where
  latitude : ℚ
  longitude : ℚ
  confidence_score : Option ℚ
  district : Json
  taluka : Json
  formatted_address : Json

/-- JS `x || d` on an optional number: absent, null and 0 are falsy and
take the default. -/
def numOrDefault (x : Option ℚ) (d : ℚ) : ℚ :=
  match x with
  | some q => if q = 0 then d else q
  | none => d

/-- `Math.max` on the numeric fragment. -/
def jsMax (a b : ℚ) : ℚ := if a < b then b else a

/-- The reconciled coordinate result (success branch fields of
geminiService.js:750-780). -/
structure ReconResult where
  success : Bool
  latitude : ℚ
  longitude : ℚ
  district : Json
  taluka : Json
  formatted_address : Json
  coordinate_source : Str
  gemini_coordinates : Option CoordSource
  alternative_coordinates : Option CoordSource
  coordinate_distance_km : ℚ
  confidence_score : ℚ
  processing_time_ms : ℚ

/-- The reconciliation of geminiService.js:747-781: with both sources
available and `distance` the computed separation, the ≤ 10 km branch
returns the geocoder coordinates verbatim (recording the AI estimate and
the distance); the > 10 km branch picks the source whose
`confidence_score || default` is strictly larger (defaults 0.8 for the
geocoder, 0.7 for the AI) and records the rejected source under
`alternative_coordinates`.  `districtArg` is the enclosing function's
district parameter and `fallbackAddress` the template-string address used
when the chosen source has no formatted address. -/
def reconcileCoordinates (geminiCoords googleCoords : CoordSource)
    (districtArg fallbackAddress : Json) (distance tms : ℚ) : ReconResult :=
  if distance ≤ 10 then
    { success := true
      latitude := googleCoords.latitude
      longitude := googleCoords.longitude
      district := jsOrJson (some googleCoords.district) districtArg
      taluka := googleCoords.taluka
      formatted_address := googleCoords.formatted_address
      coordinate_source := "google_maps_verified".data
      gemini_coordinates := some geminiCoords
      alternative_coordinates := none
      coordinate_distance_km := distance
      confidence_score := jsMax (numOrDefault googleCoords.confidence_score (mkRat 8 10))
        (numOrDefault geminiCoords.confidence_score (mkRat 7 10))
      processing_time_ms := tms }
  else
    let useGoogleMaps :=
      numOrDefault geminiCoords.confidence_score (mkRat 7 10) <
        numOrDefault googleCoords.confidence_score (mkRat 8 10)
    let chosenSource := if useGoogleMaps then googleCoords else geminiCoords
    { success := true
      latitude := chosenSource.latitude
      longitude := chosenSource.longitude
      district := jsOrJson (some chosenSource.district) districtArg
      taluka := chosenSource.taluka
      formatted_address := jsOrJson (some chosenSource.formatted_address) fallbackAddress
      coordinate_source :=
        if useGoogleMaps then "google_maps_high_confidence".data
        else "gemini_high_confidence".data
      gemini_coordinates := none
      alternative_coordinates := some (if useGoogleMaps then geminiCoords else googleCoords)
      coordinate_distance_km := distance
      confidence_score := numOrDefault chosenSource.confidence_score (mkRat 7 10)
      processing_time_ms := tms }

/-! ## Claim C1 -/

/-- C1, counterexample: beyond 10 km the code does NOT always pick the
source reporting the higher confidence.  With the AI estimate reporting
confidence 0 (falsy, replaced by the 0.7 default) and the geocoder
reporting 0.5, the geocoder reports the strictly higher score, yet the
reconciled latitude is the AI estimate's 23, not the geocoder's 22. -/
theorem c1_counterexample :
    (0 : ℚ) < mkRat 1 2 ∧ (10 : ℚ) < 20 ∧
      (reconcileCoordinates
          ⟨23, 70, some 0, Json.undef, Json.undef, Json.undef⟩
          ⟨22, 71, some (mkRat 1 2), Json.undef, Json.undef, Json.undef⟩
          Json.undef Json.undef 20 1).latitude = 23 ∧
      (23 : ℚ) ≠ 22 := by
  refine ⟨by decide, by decide, by decide, by decide⟩

/-- C1 (amended): within 10 km (inclusive) the reconciled coordinates are
exactly the geocoder's, with the distance recorded; beyond 10 km the
comparison is on effective confidences where a missing or zero (falsy)
reported score is replaced by the defaults 0.8 (geocoder) and 0.7 (AI
estimate): the geocoder wins exactly when its effective confidence is
strictly higher, otherwise (ties included) the AI estimate wins, and the
rejected source's coordinates are recorded under
`alternative_coordinates`. -/
theorem c1_reconciliation :
    ∀ (gem goo : CoordSource) (da fa : Json) (dist t : ℚ),
      (dist ≤ 10 →
        (reconcileCoordinates gem goo da fa dist t).latitude = goo.latitude ∧
        (reconcileCoordinates gem goo da fa dist t).longitude = goo.longitude ∧
        (reconcileCoordinates gem goo da fa dist t).coordinate_distance_km = dist ∧
        (reconcileCoordinates gem goo da fa dist t).gemini_coordinates = some gem) ∧
      (10 < dist →
        (numOrDefault gem.confidence_score (mkRat 7 10) <
            numOrDefault goo.confidence_score (mkRat 8 10) →
          (reconcileCoordinates gem goo da fa dist t).latitude = goo.latitude ∧
          (reconcileCoordinates gem goo da fa dist t).longitude = goo.longitude ∧
          (reconcileCoordinates gem goo da fa dist t).alternative_coordinates = some gem) ∧
        (numOrDefault goo.confidence_score (mkRat 8 10) ≤
            numOrDefault gem.confidence_score (mkRat 7 10) →
          (reconcileCoordinates gem goo da fa dist t).latitude = gem.latitude ∧
          (reconcileCoordinates gem goo da fa dist t).longitude = gem.longitude ∧
          (reconcileCoordinates gem goo da fa dist t).alternative_coordinates = some goo)) := by
  intro gem goo da fa dist t
  constructor
  · intro h
    unfold reconcileCoordinates
    rw [if_pos h]
    exact ⟨rfl, rfl, rfl, rfl⟩
  · intro h
    have hn : ¬ (dist ≤ 10) := not_le.mpr h
    constructor
    · intro hlt
      unfold reconcileCoordinates
      rw [if_neg hn]
      dsimp only
      rw [if_pos hlt, if_pos hlt]
      exact ⟨rfl, rfl, rfl⟩
    · intro hle
      have hnlt : ¬ (numOrDefault gem.confidence_score (mkRat 7 10) <
          numOrDefault goo.confidence_score (mkRat 8 10)) := not_lt.mpr hle
      unfold reconcileCoordinates
      rw [if_neg hn]
      dsimp only
      rw [if_neg hnlt, if_neg hnlt]
      exact ⟨rfl, rfl, rfl⟩

/-- C1 witness: a pair 3 km apart takes the geocoder's coordinates; the
same pair 20 km apart with reported confidences 0.9 (geocoder) and 0.6
(AI) also takes the geocoder's coordinates and records the AI estimate as
the rejected alternative. -/
theorem c1_witness :
    ((3 : ℚ) ≤ 10 ∧
      (reconcileCoordinates
          ⟨23, 70, some (mkRat 6 10), Json.undef, Json.undef, Json.undef⟩
          ⟨22, 71, some (mkRat 9 10), Json.undef, Json.undef, Json.undef⟩
          Json.undef Json.undef 3 1).latitude = 22) ∧
      ((10 : ℚ) < 20 ∧
        (reconcileCoordinates
            ⟨23, 70, some (mkRat 6 10), Json.undef, Json.undef, Json.undef⟩
            ⟨22, 71, some (mkRat 9 10), Json.undef, Json.undef, Json.undef⟩
            Json.undef Json.undef 20 1).latitude = 22 ∧
        (reconcileCoordinates
            ⟨23, 70, some (mkRat 6 10), Json.undef, Json.undef, Json.undef⟩
            ⟨22, 71, some (mkRat 9 10), Json.undef, Json.undef, Json.undef⟩
            Json.undef Json.undef 20 1).alternative_coordinates =
          some ⟨23, 70, some (mkRat 6 10), Json.undef, Json.undef, Json.undef⟩) := by
  constructor
  · exact ⟨by decide,
      ((c1_reconciliation ⟨23, 70, some (mkRat 6 10), Json.undef, Json.undef, Json.undef⟩
        ⟨22, 71, some (mkRat 9 10), Json.undef, Json.undef, Json.undef⟩
        Json.undef Json.undef 3 1).1 (by decide)).1⟩
  · have h := ((c1_reconciliation ⟨23, 70, some (mkRat 6 10), Json.undef, Json.undef, Json.undef⟩
      ⟨22, 71, some (mkRat 9 10), Json.undef, Json.undef, Json.undef⟩
      Json.undef Json.undef 20 1).2 (by decide)).1 (by decide)
    exact ⟨by decide, h.1, h.2.2⟩

/-! ## Calendar arithmetic and JS dates

`savePropertyNotice` builds `new Date(year, month, day)` — a LOCAL-time
construction — while reads render `toISOString()` — UTC.  Dates are
modelled as epoch milliseconds with an explicit timezone offset
(milliseconds east of UTC).  `Int.ediv` is floor division for the positive
divisors used here. -/

/-- Days from 1970-01-01 to the civil date y-m-d (m in 1..12); the
standard era-based calendar algorithm used by JS engines' `MakeDay`. -/
def daysFromCivil (y m d : Int) : Int :=
  let y2 := if m ≤ 2 then y - 1 else y
  let era := Int.ediv y2 400
  let yoe := y2 - era * 400
  let mp := if 2 < m then m - 3 else m + 9
  let doy := Int.ediv (153 * mp + 2) 5 + d - 1
  let doe := yoe * 365 + Int.ediv yoe 4 - Int.ediv yoe 100 + doy
  era * 146097 + doe - 719468

/-- Civil date (y, m, d) of a day count from 1970-01-01 (inverse of
`daysFromCivil`). -/
def civilFromDays (z0 : Int) : Int × Int × Int :=
  let z := z0 + 719468
  let era := Int.ediv z 146097
  let doe := z - era * 146097
  let yoe := Int.ediv (doe - Int.ediv doe 1460 + Int.ediv doe 36524 - Int.ediv doe 146096) 365
  let y := yoe + era * 400
  let doy := doe - (365 * yoe + Int.ediv yoe 4 - Int.ediv yoe 100)
  let mp := Int.ediv (5 * doy + 2) 153
  let d := doy - Int.ediv (153 * mp + 2) 5 + 1
  let m := if mp < 10 then mp + 3 else mp - 9
  (if m ≤ 2 then y + 1 else y, m, d)

/-- Epoch milliseconds of JS `new Date(year, month0, day)` — local
midnight in a timezone `tz` milliseconds east of UTC, with the
out-of-range month/day normalization of `MakeDay`. -/
def jsDateMs (tz year month0 day : Int) : Int :=
  let ym := year + Int.ediv month0 12
  let mn := month0 - 12 * Int.ediv month0 12
  (daysFromCivil ym (mn + 1) 1 + (day - 1)) * 86400000 - tz

/-- The date part of `Date.prototype.toISOString()` (UTC). -/
def isoDatePart (ms : Int) : Int × Int × Int :=
  civilFromDays (Int.ediv ms 86400000)

/-- Calendar sanity anchor: the roundtrip at the claim's date. -/
example : civilFromDays (daysFromCivil 2025 7 18) = (2025, 7, 18) := by decide

/-! ## Persistence adapter (src/backend/services/firebaseService.js) -/

/-- Key "buyer_name". -/
def kBuyerName : Str := "buyer_name".data

/-- Key "seller_name". -/
def kSellerName : Str := "seller_name".data

/-- Key "advocate_name". -/
def kAdvocateName : Str := "advocate_name".data

/-- Key "advocate_address". -/
def kAdvocateAddress : Str := "advocate_address".data

/-- Key "advocate_mobile". -/
def kAdvocateMobile : Str := "advocate_mobile".data

/-- Key "district". -/
def kDistrict : Str := "district".data

/-- Key "taluka". -/
def kTaluka : Str := "taluka".data

/-- Key "full_address". -/
def kFullAddress : Str := "full_address".data

/-- Key "geocoding_status". -/
def kGeocodingStatus : Str := "geocoding_status".data

/-- JS `x || null`. -/
def jsOrNull (v : Option Json) : Json :=
  match v with
  | some x => if jsTruthy x then x else Json.null
  | none => Json.null

/-- One stored notice document: the flat `docData` written by
`savePropertyNotice` (firebaseService.js:107-138).  `notice_date` holds
epoch milliseconds (a `Date` / Firestore timestamp) or null. -/
structure StoredNotice where
  id : Str
  village_name : Json
  survey_number : Json
  buyer_name : Json
  seller_name : Json
  notice_date : Option Int
  advocate_name : Json
  advocate_address : Json
  advocate_mobile : Json
  raw_text : Json
  extracted_data : List (Str × Json)
  confidence_score : Json
  processing_status : Json
  ai_service : Json
  filename : Json
  latitude : Json
  longitude : Json
  district : Json
  taluka : Json
  full_address : Json
  geocoding_status : Json
  uploaded_at : Int
  updated_at : Int
  processing_time_ms : Json

/-- One processing-log document (firebaseService.js:344-352; the fields
beyond the parent id are not needed by any claim's property). -/
structure LogEntry where
  id : Str
  property_notice_id : Str
  processing_step : Str
  status : Str

/-- The two Firestore collections. -/
structure DB where
  notices : List (Str × StoredNotice)
  logs : List LogEntry

/-- The empty store. -/
def dbEmpty : DB := ⟨[], []⟩

/-- `docRef.set`: write the document for an id, overwriting. -/
def setAssoc (k : Str) (v : StoredNotice) :
    List (Str × StoredNotice) → List (Str × StoredNotice)
  | [] => [(k, v)]
  | (k2, v2) :: rest => if k2 = k then (k, v) :: rest else (k2, v2) :: setAssoc k v rest

/-- Document lookup by id. -/
def lookupNotice (k : Str) : List (Str × StoredNotice) → Option StoredNotice
  | [] => none
  | (k2, v) :: rest => if k2 = k then some v else lookupNotice k rest

/-- JS `String.prototype.split('/')`. -/
def splitSlash : Str → List Str
  | [] => [[]]
  | c :: rest =>
    if c = '/' then [] :: splitSlash rest
    else
      match splitSlash rest with
      | p :: ps => (c :: p) :: ps
      | [] => [[c]]

/-- JS `parseInt` on the decimal fragment (`none` is NaN). -/
def parseIntJS (s : Str) : Option Int :=
  let t := s.dropWhile wsChar
  let p := match t with
    | '-' :: r => (true, r)
    | '+' :: r => (false, r)
    | _ => (false, t)
  let ds := p.2.takeWhile isDigitCh
  if ds = [] then none
  else some (if p.1 then -(digitsToNat ds : Int) else (digitsToNat ds : Int))

/-- The notice-date conversion of firebaseService.js:94-104: a truthy
`notice_date` string with three '/'-separated parts becomes
`new Date(year, month - 1, day)`; otherwise the stored date stays null.
The outer `none` marks a thrown `TypeError` (a truthy non-string has no
`.split`).  Parts that `parseInt` to NaN produce an invalid `Date`,
modelled as null (no claim concerns non-numeric parts). -/
def noticeDateOf (tz : Int) (extracted : List (Str × Json)) : Option (Option Int) :=
  match lookupLast kNoticeDate extracted with
  | some (Json.str s) =>
    if s = [] then some none
    else
      match splitSlash s with
      | [p1, p2, p3] =>
        match parseIntJS p1, parseIntJS p2, parseIntJS p3 with
        | some d, some mo, some y => some (some (jsDateMs tz y (mo - 1) d))
        | _, _, _ => some none
      | _ => some none
  | some v => if jsTruthy v then none else some none
  | none => some none

/-- The argument object of `savePropertyNotice` (firebaseService.js:79-87). -/
structure SaveInput where
  raw_text : Json
  extracted_data : List (Str × Json)
  confidence_score : Json
  processing_time_ms : Json
  processing_status : Json
  ai_service : Json
  filename : Json

/-- `savePropertyNotice` (firebaseService.js:73-162): convert the notice
date, build the flat document, write it under the fresh id, append one
processing-log entry.  `none` marks a thrown error (see `noticeDateOf`);
`tz`/`now` are the ambient timezone offset and server time, `newId`/`logId`
the generated UUIDs. -/
def savePropertyNotice (tz now : Int) (newId logId : Str) (db : DB) (inp : SaveInput) :
    Option (DB × StoredNotice) :=
  match noticeDateOf tz inp.extracted_data with
  | none => none
  | some noticeDate =>
    let docData : StoredNotice :=
      { id := newId
        village_name := jsOrNull (lookupLast kVillageName inp.extracted_data)
        survey_number := jsOrNull (lookupLast kSurveyNumber inp.extracted_data)
        buyer_name := jsOrNull (lookupLast kBuyerName inp.extracted_data)
        seller_name := jsOrNull (lookupLast kSellerName inp.extracted_data)
        notice_date := noticeDate
        advocate_name := jsOrNull (lookupLast kAdvocateName inp.extracted_data)
        advocate_address := jsOrNull (lookupLast kAdvocateAddress inp.extracted_data)
        advocate_mobile := jsOrNull (lookupLast kAdvocateMobile inp.extracted_data)
        raw_text := inp.raw_text
        extracted_data := inp.extracted_data
        confidence_score := jsOrNull (some inp.confidence_score)
        processing_status := inp.processing_status
        ai_service := inp.ai_service
        filename := jsOrNull (some inp.filename)
        latitude := jsOrNull (lookupLast kLatitude inp.extracted_data)
        longitude := jsOrNull (lookupLast kLongitude inp.extracted_data)
        district := jsOrNull (lookupLast kDistrict inp.extracted_data)
        taluka := jsOrNull (lookupLast kTaluka inp.extracted_data)
        full_address := jsOrNull (lookupLast kFullAddress inp.extracted_data)
        geocoding_status :=
          jsOrJson (lookupLast kGeocodingStatus inp.extracted_data)
            (Json.str "pending".data)
        uploaded_at := now
        updated_at := now
        processing_time_ms := jsOrNull (some inp.processing_time_ms) }
    some ({ notices := setAssoc newId docData db.notices,
            logs := db.logs ++
              [⟨logId, newId, "EXTRACTION_COMPLETED".data, "success".data⟩] },
          docData)

/-- `getPropertyNoticeById` (firebaseService.js:219-245): the stored
document together with the rendered date part of its notice date (the
`toISOString().split('T')[0]` of line 238); `none` when the document does
not exist. -/
def getPropertyNoticeById (db : DB) (id : Str) :
    Option (StoredNotice × Option (Int × Int × Int)) :=
  (lookupNotice id db.notices).map (fun r => (r, r.notice_date.map isoDatePart))

/-- Firestore collections touched by delete operations. -/
inductive Coll where
  | notices
  | logs
  deriving DecidableEq

/-- One store operation issued by `deletePropertyNotice`: a direct
single-document delete, or one committed batch of deletes. -/
inductive StoreOp where
  | del (c : Coll) (id : Str)
  | batch (dels : List (Coll × Str))
  deriving DecidableEq

/-- `deletePropertyNotice` (firebaseService.js:294-328): check existence
(false when absent), delete the document DIRECTLY, then query the logs by
parent id and delete them in ONE batch.  The third component is the trace
of issued store operations, in order. -/
def deletePropertyNotice (db : DB) (id : Str) : DB × Bool × List StoreOp :=
  match lookupNotice id db.notices with
  | none => (db, false, [])
  | some _ =>
    let logIds := (db.logs.filter (fun l => decide (l.property_notice_id = id))).map
      (fun l => l.id)
    ({ notices := db.notices.filter (fun p => !(decide (p.1 = id))),
       logs := db.logs.filter (fun l => !(decide (l.property_notice_id = id))) },
     true,
     [StoreOp.del Coll.notices id,
      StoreOp.batch (logIds.map (fun i => (Coll.logs, i)))])

/-- The location update of `updatePropertyNoticeLocation`
(firebaseService.js:367-392), applied to an existing document. -/
structure LocUpdate where
  latitude : Json
  longitude : Json
  district : Json
  taluka : Json
  formatted_address : Json
  status : Json

/-- Apply `updatePropertyNoticeLocation`'s field updates to the document
with the given id (the caller just created it). -/
def updatePropertyNoticeLocation (now : Int) (db : DB) (id : Str) (loc : LocUpdate) : DB :=
  { notices := db.notices.map (fun p =>
      if p.1 = id then
        (p.1,
          { p.2 with
            latitude := jsOrNull (some loc.latitude)
            longitude := jsOrNull (some loc.longitude)
            district := jsOrNull (some loc.district)
            taluka := jsOrNull (some loc.taluka)
            full_address := jsOrNull (some loc.formatted_address)
            geocoding_status := jsOrJson (some loc.status) (Json.str "completed".data)
            updated_at := now })
      else p)
    logs := db.logs }

/-! ## `POST /api/save-notice` handler (src/unnamed/part_001:157-249) -/

/-- Outcome of the auto-geocoding call made by the handler: a successful
geocode, a `success: false` result, or a thrown error (service
unreachable). -/
inductive GeoOutcome where
  | success (latitude longitude district taluka formatted_address : Json)
  | failure (err : Json)
  | thrown (err : Str)

/-- The HTTP response as far as the claims observe it. -/
structure HttpResponse where
  status : Nat
  success : Bool
  code : Option Str

/-- The `dataToSave` object built by the handler (part_001:171-179). -/
def handlerSaveInput (ed : List (Str × Json))
    (rawText confidenceScore processingTime aiService filename : Json) : SaveInput :=
  { raw_text := rawText
    extracted_data := ed
    confidence_score := confidenceScore
    processing_time_ms := processingTime
    processing_status := Json.str "completed".data
    ai_service := jsOrJson (some aiService) (Json.str "google_vision_and_gemini".data)
    filename := filename }

/-- The auto-geocoding block of the handler (part_001:186-228), inside
its own try/catch: a truthy string village name is cleaned and, if at
least 2 characters remain, geocoded; only a SUCCESSFUL geocode updates
the stored location (setting `geocoding_status` to success); a
`success: false` result or a thrown geocoding error (and a truthy
non-string village name, whose `.replace` throws inside the same try)
leaves the store untouched. -/
def handlerGeoStep (now : Int) (newId : Str) (ed : List (Str × Json)) (db2 : DB)
    (geo : GeoOutcome) : DB :=
  match lookupLast kVillageName ed with
  | some (Json.str vn) =>
    if vn = [] then db2
    else
      let villageName := handlerCleanVillage vn
      if 2 ≤ villageName.length then
        match geo with
        | GeoOutcome.success la lo di ta fa =>
          updatePropertyNoticeLocation now db2 newId
            ⟨la, lo,
              jsOrJson (some di) (jsOrNull (lookupLast kDistrict ed)),
              jsOrJson (some ta) (jsOrNull (lookupLast kTaluka ed)),
              fa, Json.str "success".data⟩
        | GeoOutcome.failure _ => db2
        | GeoOutcome.thrown _ => db2
      else db2
  | _ => db2

/-- The `POST /api/save-notice` handler (part_001:157-249): reject a
missing `extractedData` with 400; persist via `savePropertyNotice`; run
the best-effort auto-geocoding step (`handlerGeoStep`); respond with a
200 success whenever the save itself succeeded. -/
def saveNoticeHandler (tz now : Int) (newId logId : Str) (db : DB)
    (extractedData : Option (List (Str × Json)))
    (rawText confidenceScore processingTime aiService filename : Json)
    (geo : GeoOutcome) : DB × HttpResponse :=
  match extractedData with
  | none => (db, ⟨400, false, some "MISSING_EXTRACTED_DATA".data⟩)
  | some ed =>
    match savePropertyNotice tz now newId logId db
        (handlerSaveInput ed rawText confidenceScore processingTime aiService filename) with
    | none => (db, ⟨500, false, some "SAVE_ERROR".data⟩)
    | some (db2, _saved) =>
      (handlerGeoStep now newId ed db2 geo, ⟨200, true, none⟩)

/-! ## Claims C5, C6, C7 -/

/-- Setting a document makes it the lookup result. -/
theorem lookupNotice_setAssoc (k : Str) (v : StoredNotice) (l : List (Str × StoredNotice)) :
    lookupNotice k (setAssoc k v l) = some v := by
  induction l with
  | nil => simp [setAssoc, lookupNotice]
  | cons p rest ih =>
    obtain ⟨k2, v2⟩ := p
    by_cases h : k2 = k
    · simp [setAssoc, lookupNotice, h]
    · simp [setAssoc, lookupNotice, h, ih]

/-- Floor division recovers the day count from a millisecond value inside
the day. -/
theorem ediv_day_exact (r n : Int) (h0 : 0 ≤ r) (h1 : r < 86400000) :
    Int.ediv (r + n * 86400000) 86400000 = n := by
  show (r + n * 86400000) / 86400000 = n
  rw [Int.add_mul_ediv_right _ _ (by norm_num : (86400000 : ℤ) ≠ 0),
    Int.ediv_eq_zero_of_lt h0 h1]
  omega

/-- At or west of UTC, local midnight of 2025-07-18 renders back as
2025-07-18 in UTC. -/
theorem isoDatePart_jsDateMs_nonpos (tz : Int) (h1 : -86400000 < tz) (h2 : tz ≤ 0) :
    isoDatePart (jsDateMs tz 2025 6 18) = (2025, 7, 18) := by
  have hms : jsDateMs tz 2025 6 18 = (-tz) + (daysFromCivil 2025 7 1 + 17) * 86400000 := by
    show (daysFromCivil 2025 7 1 + 17) * 86400000 - tz =
      (-tz) + (daysFromCivil 2025 7 1 + 17) * 86400000
    ring
  unfold isoDatePart
  rw [hms, ediv_day_exact _ _ (by omega) (by omega)]
  decide

/-- The concrete save request of the round-trip scenario: an extracted
field set whose notice date is the string "18/07/2025". -/
def c5Input : SaveInput :=
  { raw_text := Json.null
    extracted_data := [(kNoticeDate, Json.str "18/07/2025".data)]
    confidence_score := Json.null
    processing_time_ms := Json.null
    processing_status := Json.null
    ai_service := Json.null
    filename := Json.null }

/-- C5, counterexample: the round trip is NOT independent of environment.
`new Date(2025, 6, 18)` is constructed in LOCAL time while the read path
renders `toISOString()` in UTC: on a server 5:30 h east of UTC
(tz = 19800000 ms, e.g. India) the record saved with "18/07/2025" reads
back as July 17, 2025. -/
theorem c5_counterexample :
    ((savePropertyNotice 19800000 0 "n1".data "g1".data dbEmpty c5Input).map
        (fun p => (getPropertyNoticeById p.1 "n1".data).map (fun q => q.2)))
      = some (some (some (2025, 7, 17))) ∧
    ((2025, 7, 17) : Int × Int × Int) ≠ (2025, 7, 18) := by
  refine ⟨by decide, by decide⟩

/-- C5 (amended): for every record saved with the notice-date string
"18/07/2025", provided the server timezone is at or west of UTC
(offset in (-24h, 0] ms east), reading the record back yields a date equal
to July 18, 2025 — the intermediate representation (local-midnight epoch
milliseconds in a Firestore timestamp) drops out.  East of UTC the read
date regresses by one day (see the counterexample). -/
theorem c5_date_roundtrip :
    ∀ (tz now : Int) (newId logId : Str) (db : DB) (inp : SaveInput)
      (db2 : DB) (r : StoredNotice),
      -86400000 < tz → tz ≤ 0 →
      lookupLast kNoticeDate inp.extracted_data = some (Json.str "18/07/2025".data) →
      savePropertyNotice tz now newId logId db inp = some (db2, r) →
      (getPropertyNoticeById db2 newId).map (fun p => p.2) = some (some (2025, 7, 18)) := by
  intro tz now newId logId db inp db2 r h1 h2 hdate hsave
  have hnd : noticeDateOf tz inp.extracted_data = some (some (jsDateMs tz 2025 6 18)) := by
    unfold noticeDateOf
    rw [hdate]
    rfl
  unfold savePropertyNotice at hsave
  rw [hnd] at hsave
  dsimp only at hsave
  simp only [Option.some.injEq, Prod.mk.injEq] at hsave
  obtain ⟨hdb, hr⟩ := hsave
  subst hdb
  unfold getPropertyNoticeById
  rw [lookupNotice_setAssoc]
  show some (some (isoDatePart (jsDateMs tz 2025 6 18))) = some (some (2025, 7, 18))
  rw [isoDatePart_jsDateMs_nonpos tz h1 h2]

/-- C5 witness: saving under UTC (offset 0) and reading back yields
July 18, 2025. -/
theorem c5_witness :
    ((savePropertyNotice 0 0 "n1".data "g1".data dbEmpty c5Input).map
        (fun p => (getPropertyNoticeById p.1 "n1".data).map (fun q => q.2)))
      = some (some (some (2025, 7, 18))) := by
  rcases hsv : savePropertyNotice 0 0 "n1".data "g1".data dbEmpty c5Input with _ | ⟨db2, r⟩
  · exact absurd (congrArg Option.isNone hsv) (by decide)
  · have h := c5_date_roundtrip 0 0 "n1".data "g1".data dbEmpty c5Input db2 r
      (by decide) (by decide) rfl hsv
    simpa using h

/-- Geocoding failure and thrown geocoding errors leave the store as the
save left it. -/
theorem handlerGeoStep_failure (now : Int) (newId : Str) (ed : List (Str × Json))
    (db2 : DB) (geo : GeoOutcome)
    (h : (∃ e, geo = GeoOutcome.failure e) ∨ (∃ e, geo = GeoOutcome.thrown e)) :
    handlerGeoStep now newId ed db2 geo = db2 := by
  have hg : ∀ la lo di ta fa, geo ≠ GeoOutcome.success la lo di ta fa := by
    rcases h with ⟨e, rfl⟩ | ⟨e, rfl⟩ <;> intro la lo di ta fa hc <;> cases hc
  unfold handlerGeoStep
  rcases lookupLast kVillageName ed with _ | v
  · rfl
  · cases v <;> try rfl
    dsimp only
    split_ifs <;> try rfl
    rcases h with ⟨e, rfl⟩ | ⟨e, rfl⟩ <;> rfl

/-- C6 (amended): for every save-notice request with valid extractedData,
when the auto-geocoding step fails (a failure result or a thrown error),
the record is persisted exactly as the save wrote it and the response is
still a 200 success; the saved record's `geocoding_status` is the value
supplied by the client defaulted to "pending" — the geocoding failure is
NOT recorded on it (only a successful geocode updates the status). -/
theorem c6_save_survives_geocoding_failure :
    ∀ (tz now : Int) (newId logId : Str) (db : DB) (ed : List (Str × Json))
      (rawText conf ptime ai fn : Json) (geo : GeoOutcome) (db2 : DB) (r : StoredNotice),
      (∃ e, geo = GeoOutcome.failure e) ∨ (∃ e, geo = GeoOutcome.thrown e) →
      savePropertyNotice tz now newId logId db (handlerSaveInput ed rawText conf ptime ai fn)
          = some (db2, r) →
      saveNoticeHandler tz now newId logId db (some ed) rawText conf ptime ai fn geo
          = (db2, ⟨200, true, none⟩) ∧
      lookupNotice newId db2.notices = some r ∧
      r.geocoding_status = jsOrJson (lookupLast kGeocodingStatus ed) (Json.str "pending".data) := by
  intro tz now newId logId db ed rawText conf ptime ai fn geo db2 r hgeo hsave
  refine ⟨?_, ?_, ?_⟩
  · unfold saveNoticeHandler
    dsimp only
    rw [hsave]
    dsimp only
    rw [handlerGeoStep_failure now newId ed db2 geo hgeo]
  · unfold savePropertyNotice at hsave
    rcases hnd : noticeDateOf tz ed with _ | nd
    · rw [show noticeDateOf tz (handlerSaveInput ed rawText conf ptime ai fn).extracted_data
          = noticeDateOf tz ed from rfl, hnd] at hsave
      exact absurd hsave (by simp)
    · rw [show noticeDateOf tz (handlerSaveInput ed rawText conf ptime ai fn).extracted_data
          = noticeDateOf tz ed from rfl, hnd] at hsave
      dsimp only at hsave
      simp only [Option.some.injEq, Prod.mk.injEq] at hsave
      obtain ⟨hdb, hr⟩ := hsave
      subst hdb
      rw [← hr]
      exact lookupNotice_setAssoc _ _ _
  · unfold savePropertyNotice at hsave
    rcases hnd : noticeDateOf tz ed with _ | nd
    · rw [show noticeDateOf tz (handlerSaveInput ed rawText conf ptime ai fn).extracted_data
          = noticeDateOf tz ed from rfl, hnd] at hsave
      exact absurd hsave (by simp)
    · rw [show noticeDateOf tz (handlerSaveInput ed rawText conf ptime ai fn).extracted_data
          = noticeDateOf tz ed from rfl, hnd] at hsave
      dsimp only at hsave
      simp only [Option.some.injEq, Prod.mk.injEq] at hsave
      obtain ⟨hdb, hr⟩ := hsave
      rw [← hr]
      rfl

/-- The extracted data of the C6 scenario: a village name and no
geocoding status. -/
def ed6 : List (Str × Json) := [(kVillageName, Json.str "રીબડા".data)]

/-- The stored geocoding status of a looked-up record, as a string. -/
def geoStatusStr (o : Option StoredNotice) : Option Str :=
  match o with
  | some r =>
    match r.geocoding_status with
    | Json.str t => some t
    | _ => none
  | none => none

/-- C6, counterexample: after a save whose auto-geocoding THROWS (service
unreachable), the record's `geocoding_status` still reads "pending" — it
does not reflect the geocoding failure (no "failed"/"error" marker is
written on this path), even though the save succeeded. -/
theorem c6_counterexample :
    (saveNoticeHandler 0 0 "n6".data "g6".data dbEmpty (some ed6)
        Json.null Json.null Json.null Json.null Json.null
        (GeoOutcome.thrown "ECONNREFUSED".data)).2.success = true ∧
      geoStatusStr (lookupNotice "n6".data
        (saveNoticeHandler 0 0 "n6".data "g6".data dbEmpty (some ed6)
          Json.null Json.null Json.null Json.null Json.null
          (GeoOutcome.thrown "ECONNREFUSED".data)).1.notices) = some "pending".data ∧
      "pending".data ≠ "failed".data ∧ "pending".data ≠ "error".data := by
  refine ⟨by decide, by decide, by decide, by decide⟩

/-- C6 witness: a concrete save with a failing (success: false) geocode
still responds 200 and persists the record with status "pending". -/
theorem c6_witness :
    (saveNoticeHandler 0 0 "n7".data "g7".data dbEmpty (some ed6)
        Json.null Json.null Json.null Json.null Json.null
        (GeoOutcome.failure (Json.str "no".data))).2 = ⟨200, true, none⟩ ∧
      geoStatusStr (lookupNotice "n7".data
        (saveNoticeHandler 0 0 "n7".data "g7".data dbEmpty (some ed6)
          Json.null Json.null Json.null Json.null Json.null
          (GeoOutcome.failure (Json.str "no".data))).1.notices) = some "pending".data := by
  rcases hsv : savePropertyNotice 0 0 "n7".data "g7".data dbEmpty
      (handlerSaveInput ed6 Json.null Json.null Json.null Json.null Json.null)
    with _ | ⟨db2, r⟩
  · exact absurd (congrArg Option.isNone hsv) (by decide)
  · have h := c6_save_survives_geocoding_failure 0 0 "n7".data "g7".data dbEmpty ed6
      Json.null Json.null Json.null Json.null Json.null
      (GeoOutcome.failure (Json.str "no".data)) db2 r
      (Or.inl ⟨Json.str "no".data, rfl⟩) hsv
    rw [h.1]
    refine ⟨rfl, ?_⟩
    show geoStatusStr (lookupNotice "n7".data db2.notices) = some "pending".data
    rw [h.2.1]
    show geoStatusStr (some r) = some "pending".data
    unfold geoStatusStr
    dsimp only
    rw [h.2.2]
    rfl

/-- Looking up a key removed by filtering finds nothing. -/
theorem lookupNotice_filter_self (k : Str) (l : List (Str × StoredNotice)) :
    lookupNotice k (l.filter (fun p => !(decide (p.1 = k)))) = none := by
  induction l with
  | nil => rfl
  | cons p rest ih =>
    obtain ⟨k2, v⟩ := p
    by_cases h : k2 = k
    · simpa [List.filter, h] using ih
    · simpa [List.filter, h, lookupNotice] using ih

/-- C7 (amended): the delete operation returns true exactly when a record
with the identifier existed; when it does, the record is removed (a
subsequent read returns not-found) and every processing-log entry of that
identifier is removed — but the cascade is NOT one atomic batch: the trace
is a direct single-document delete of the record followed by one batch
deleting exactly the queried log entries.  When no record exists, nothing
is deleted and no store operation is issued. -/
theorem c7_delete_behaviour :
    ∀ (db : DB) (id : Str),
      ((deletePropertyNotice db id).2.1 = true ↔ (lookupNotice id db.notices).isSome = true) ∧
      (∀ r : StoredNotice, lookupNotice id db.notices = some r →
        getPropertyNoticeById (deletePropertyNotice db id).1 id = none ∧
        ((deletePropertyNotice db id).1.logs.all
          (fun l => !(decide (l.property_notice_id = id)))) = true ∧
        (deletePropertyNotice db id).2.2 =
          [StoreOp.del Coll.notices id,
           StoreOp.batch (((db.logs.filter (fun l => decide (l.property_notice_id = id))).map
             (fun l => l.id)).map (fun i => (Coll.logs, i)))]) ∧
      (lookupNotice id db.notices = none →
        (deletePropertyNotice db id).1 = db ∧ (deletePropertyNotice db id).2.1 = false ∧
        (deletePropertyNotice db id).2.2 = []) := by
  intro db id
  refine ⟨?_, ?_, ?_⟩
  · rcases hx : lookupNotice id db.notices with _ | r <;>
      unfold deletePropertyNotice <;> rw [hx] <;> simp
  · intro r hr
    unfold deletePropertyNotice
    rw [hr]
    refine ⟨?_, ?_, rfl⟩
    · unfold getPropertyNoticeById
      dsimp only
      rw [lookupNotice_filter_self]
      rfl
    · dsimp only
      rw [List.all_eq_true]
      intro x hx
      exact (List.mem_filter.mp hx).2
  · intro h
    unfold deletePropertyNotice
    rw [h]
    exact ⟨rfl, rfl, rfl⟩

/-- A concrete stored notice used by the delete scenario. -/
def dummyNotice : StoredNotice :=
  { id := "a".data
    village_name := Json.null
    survey_number := Json.null
    buyer_name := Json.null
    seller_name := Json.null
    notice_date := none
    advocate_name := Json.null
    advocate_address := Json.null
    advocate_mobile := Json.null
    raw_text := Json.null
    extracted_data := []
    confidence_score := Json.null
    processing_status := Json.null
    ai_service := Json.null
    filename := Json.null
    latitude := Json.null
    longitude := Json.null
    district := Json.null
    taluka := Json.null
    full_address := Json.null
    geocoding_status := Json.null
    uploaded_at := 0
    updated_at := 0
    processing_time_ms := Json.null }

/-- A store holding the record "a" and one of its processing logs. -/
def db7 : DB :=
  ⟨[("a".data, dummyNotice)], [⟨"L1".data, "a".data, "S".data, "ok".data⟩]⟩

/-- C7, counterexample: the cascade is NOT performed in one atomic batch.
In the trace of deleting record "a", no batch operation contains the
record's deletion — the record is removed by a separate direct delete
preceding the logs batch. -/
theorem c7_counterexample :
    ((deletePropertyNotice db7 "a".data).2.2.any (fun op =>
        match op with
        | StoreOp.batch dels => decide ((Coll.notices, "a".data) ∈ dels)
        | _ => false)) = false ∧
      ((deletePropertyNotice db7 "a".data).2.2.any (fun op =>
        match op with
        | StoreOp.del c i => decide (c = Coll.notices ∧ i = "a".data)
        | _ => false)) = true ∧
      (deletePropertyNotice db7 "a".data).2.1 = true := by
  refine ⟨by decide, by decide, by decide⟩

/-- C7 witness: deleting the concrete record removes it, removes its log
entry, and returns true. -/
theorem c7_witness :
    getPropertyNoticeById (deletePropertyNotice db7 "a".data).1 "a".data = none ∧
      ((deletePropertyNotice db7 "a".data).1.logs.all
        (fun l => !(decide (l.property_notice_id = "a".data)))) = true ∧
      (deletePropertyNotice db7 "a".data).2.1 = true := by
  have h := (c7_delete_behaviour db7 "a".data).2.1 dummyNotice rfl
  exact ⟨h.1, h.2.1, ((c7_delete_behaviour db7 "a".data).1).mpr (by decide)⟩

end DreamLand
